import Mathlib

/-
Verification of the order-fulfillment pipeline (app/workflows.py,
app/activities.py, app/stubs.py) against its specification.

Shallow embedding conventions:
* The durable store (Postgres tables orders, payments, events) is modeled
  as lists of rows; each SQL statement of an activity becomes a WriteOp,
  applied in order.  INSERT ... ON CONFLICT DO NOTHING becomes an
  insert-or-ignore on the primary key; UPDATE orders SET state=... becomes
  a map over the rows.  Timestamps are omitted (no claim depends on them).
* External collaborators (app/stubs.py) are deterministic except for
  flaky_call, which either raises or stalls past the activity timeout;
  both surface to the activity layer as a failure with a message.  Each
  activity attempt therefore takes an oracle (Option String): some msg
  means the collaborator call failed with that message, none means it
  returned.  The order source stub returns a fixed item list; the spec
  treats it as an external collaborator returning arbitrary items, so the
  fetched item list is an oracle input as well.
* The Temporal activity executor (RetryPolicy, maximum_attempts=3)
  re-invokes the whole activity body on failure; a failed collaborator
  call happens before any database write, so a failed attempt leaves the
  store unchanged.  executeActivity folds the per-attempt oracles.
* OrderWorkflow.run and ShippingWorkflow.run become total functions of the
  initial store, the arguments, and an environment recording per-attempt
  collaborator outcomes and signal deliveries.  Totality of the Lean
  function models the Python try/except that never re-raises.
* Signals: cancel_order is recorded as the first checkpoint index at which
  the canceled flag reads true; update_address as the list of delivered
  addresses; dispatch_failed is emitted only by the shipping child (the
  only sender in the repository) and is threaded back to the parent.
-/

namespace Fulfillment

/-- One order line item (stubs.py: dicts with sku and qty). -/
structure Item where
  sku : String
  qty : Nat
deriving DecidableEq, Repr

/-- The order payload returned by ReceiveOrder (stubs.order_received). -/
structure OrderVal where
  order_id : String
  items : List Item
deriving DecidableEq, Repr

/-- An address object (JSON object, modeled as an association list). -/
abbrev Addr := List (String × String)

/-- Row of the orders table: orders(id PK, state, address_json, ...). -/
structure OrderRow where
  id : String
  state : String
  address_json : String
deriving DecidableEq, Repr

/-- Row of the payments table: payments(payment_id PK, order_id, status, amount). -/
structure PaymentRow where
  payment_id : String
  order_id : String
  status : String
  amount : Nat
deriving DecidableEq, Repr

/-- The JSON payload of an event row, structured by which json.dumps call
in app/activities.py produced it. -/
inductive Payload where
  | orderP (o : OrderVal)
  | okP (ok : Bool)
  | chargeP (payment_id : String) (status : String) (amount : Nat)
  | resultP (result : String)
deriving DecidableEq, Repr

/-- Row of the events table: events(order_id, type, payload_json, ts). -/
structure EventRow where
  order_id : String
  type : String
  payload : Payload
deriving DecidableEq, Repr

/-- The durable store: the three tables created by the migrations. -/
structure DB where
  orders : List OrderRow
  payments : List PaymentRow
  events : List EventRow
deriving DecidableEq, Repr

def emptyDB : DB := ⟨[], [], []⟩

/-- json.dumps of the empty dict, stored in address_json by ReceiveOrder. -/
def emptyJson : String := "\x7b\x7d"

/-- SELECT by primary key on orders. -/
def lookupOrder (db : DB) (id : String) : Option OrderRow :=
  db.orders.find? (fun r => r.id == id)

/-- SELECT status, amount FROM payments WHERE payment_id=$1. -/
def lookupPayment (db : DB) (pid : String) : Option PaymentRow :=
  db.payments.find? (fun r => r.payment_id == pid)

/-- One SQL statement executed by an activity body. -/
inductive WriteOp where
  | insertOrderIgnore (id state address_json : String)
  | updateOrderState (id state : String)
  | insertPaymentIgnore (payment_id order_id status : String) (amount : Nat)
  | insertEvent (order_id type : String) (payload : Payload)
deriving DecidableEq, Repr

/-- Effect of one SQL statement on the store (asyncpg autocommits each
statement; there is no surrounding transaction in app/activities.py). -/
def applyWrite (db : DB) : WriteOp → DB
  | .insertOrderIgnore id st aj =>
      if (lookupOrder db id).isSome then db
      else { db with orders := db.orders ++ [⟨id, st, aj⟩] }
  | .updateOrderState id st =>
      { db with orders :=
          db.orders.map (fun r => if r.id == id then { r with state := st } else r) }
  | .insertPaymentIgnore pid oid st amt =>
      if (lookupPayment db pid).isSome then db
      else { db with payments := db.payments ++ [⟨pid, oid, st, amt⟩] }
  | .insertEvent oid ty pl =>
      { db with events := db.events ++ [⟨oid, ty, pl⟩] }

def applyWrites (db : DB) (ws : List WriteOp) : DB :=
  ws.foldl applyWrite db

/- ---------- stubs.py: external collaborators ----------
Each takes the flaky_call oracle first, since flaky_call runs before the
rest of the stub body.  The order source stub hard-codes one item; per
spec section 6 the order source is an external collaborator returning
arbitrary items, so the fetched list is a parameter. -/

/-- stubs.order_received: flaky_call, then return the fetched order
payload for this order id. -/
def order_received (order_id : String) (fetched : List Item)
    (flaky : Option String) : Except String OrderVal :=
  match flaky with
  | some m => .error m
  | none => .ok ⟨order_id, fetched⟩

/-- stubs.order_validated: flaky_call, then raise ValueError if the order
has no items, else return true. -/
def order_validated (order : OrderVal) (flaky : Option String) :
    Except String Bool :=
  match flaky with
  | some m => .error m
  | none =>
      if order.items.isEmpty then .error "No items to validate" else .ok true

/-- Result of the payment gateway stub: status and amount. -/
structure PayOutcome where
  status : String
  amount : Nat
deriving DecidableEq, Repr

/-- stubs.payment_charged: flaky_call, then charge with amount the sum of
the item quantities. -/
def payment_charged (order : OrderVal) (flaky : Option String) :
    Except String PayOutcome :=
  match flaky with
  | some m => .error m
  | none => .ok ⟨"charged", (order.items.map Item.qty).sum⟩

/-- stubs.package_prepared: flaky_call, then a fixed result string. -/
def package_prepared (flaky : Option String) : Except String String :=
  match flaky with
  | some m => .error m
  | none => .ok "Package ready"

/-- stubs.carrier_dispatched: flaky_call, then a fixed result string. -/
def carrier_dispatched (flaky : Option String) : Except String String :=
  match flaky with
  | some m => .error m
  | none => .ok "Dispatched"

/- ---------- activities.py: activity bodies ----------
Each body returns the activity result together with the list of SQL
statements it executes, in program order.  The collaborator call comes
first in every body, so a collaborator failure produces no writes. -/

/-- activities.receive_order: call the order source, then insert the
order row (insert-or-ignore) and append an order_received event. -/
def receive_order (order_id : String) (fetched : List Item)
    (flaky : Option String) : Except String (OrderVal × List WriteOp) :=
  match order_received order_id fetched flaky with
  | .error m => .error m
  | .ok payload =>
      .ok (payload,
        [.insertOrderIgnore order_id "RECEIVED" emptyJson,
         .insertEvent order_id "order_received" (.orderP payload)])

/-- activities.validate_order: call the validation stub, then update the
order state to VALIDATED and append an order_validated event. -/
def validate_order (order : OrderVal) (flaky : Option String) :
    Except String (Bool × List WriteOp) :=
  match order_validated order flaky with
  | .error m => .error m
  | .ok ok =>
      .ok (ok,
        [.updateOrderState order.order_id "VALIDATED",
         .insertEvent order.order_id "order_validated" (.okP ok)])

/-- Returned value of ChargePayment; idempotent is true exactly when the
Python dict carries the idempotent key. -/
structure ChargeResult where
  status : String
  amount : Nat
  idempotent : Bool
deriving DecidableEq, Repr

/-- activities.charge_payment: first the idempotency check (SELECT by
payment id); on a hit, return the stored row tagged idempotent with no
writes; otherwise call the gateway, then insert the payment row
(insert-or-ignore), update the order state to PAID, and append a
payment_charged event. -/
def charge_payment (db : DB) (order : OrderVal) (payment_id : String)
    (flaky : Option String) : Except String (ChargeResult × List WriteOp) :=
  match lookupPayment db payment_id with
  | some p => .ok (⟨p.status, p.amount, true⟩, [])
  | none =>
      match payment_charged order flaky with
      | .error m => .error m
      | .ok r =>
          .ok (⟨r.status, r.amount, false⟩,
            [.insertPaymentIgnore payment_id order.order_id r.status r.amount,
             .updateOrderState order.order_id "PAID",
             .insertEvent order.order_id "payment_charged"
               (.chargeP payment_id r.status r.amount)])

/-- activities.prepare_package: call the packaging stub, then append a
package_prepared event.  No orders or payments mutation. -/
def prepare_package (order : OrderVal) (flaky : Option String) :
    Except String (String × List WriteOp) :=
  match package_prepared flaky with
  | .error m => .error m
  | .ok res =>
      .ok (res, [.insertEvent order.order_id "package_prepared" (.resultP res)])

/-- activities.dispatch_carrier: call the carrier stub, then update the
order state to SHIPPED and append a carrier_dispatched event. -/
def dispatch_carrier (order : OrderVal) (flaky : Option String) :
    Except String (String × List WriteOp) :=
  match carrier_dispatched flaky with
  | .error m => .error m
  | .ok res =>
      .ok (res,
        [.updateOrderState order.order_id "SHIPPED",
         .insertEvent order.order_id "carrier_dispatched" (.resultP res)])

/-- Run one activity attempt to completion: on success all of its SQL
statements are applied to the store. -/
def runBody (db : DB) (r : Except String (α × List WriteOp)) :
    Except String (α × DB) :=
  match r with
  | .error m => .error m
  | .ok (a, ws) => .ok (a, applyWrites db ws)

/-- The Temporal activity executor with its retry policy: re-invoke the
body, one attempt per oracle entry, returning the first success or the
last failure.  A failed attempt makes no writes (the collaborator call
precedes every write), so the store seen by each attempt is unchanged. -/
def executeActivity (db : DB)
    (body : Option String → Except String (α × List WriteOp)) :
    List (Option String) → Except String (α × DB)
  | [] => .error "activity was not attempted"
  | [f] => runBody db (body f)
  | f :: f2 :: rest =>
      match runBody db (body f) with
      | .ok r => .ok r
      | .error _ => executeActivity db body (f2 :: rest)

/- ---------- workflows.py ---------- -/

/-- The environment of one OrderWorkflow execution: the item list served
by the order source, the per-attempt collaborator oracles of each
activity, the first checkpoint index (1, 2 or 3) at which a delivered
cancel_order signal makes the canceled flag read true, and the addresses
delivered by update_address signals, in order. -/
structure Env where
  fetched : List Item
  receiveAtt : List (Option String)
  validateAtt : List (Option String)
  payAtt : List (Option String)
  prepareAtt : List (Option String)
  dispatchAtt : List (Option String)
  cancelFrom : Option Nat
  addrSigs : List Addr
deriving DecidableEq, Repr

/-- Value of the canceled flag at checkpoint i (the flag, once set, stays
set; checkpoint 1 follows RECEIVE, 2 follows VALIDATE, 3 follows PAY). -/
def canceledAt (env : Env) (i : Nat) : Bool :=
  match env.cancelFrom with
  | some j => decide (j ≤ i)
  | none => false

/-- The address stored on the instance after all update_address signals
have been handled (each delivery replaces the previous value; without any
delivery it stays the empty dict the constructor wrote). -/
def lastAddr (sigs : List Addr) : Addr :=
  (sigs.getLast?).getD []

/-- Errors appended by the dispatch_failed signal handler, given the
signal the shipping child sent (the child is the only sender of this
signal in the repository). -/
def dispatchErrors : Option String → List String
  | some r => ["dispatch_failed: " ++ r]
  | none => []

/-- The dict returned by OrderWorkflow.run: on the completed path the
dict has keys status, order_id, step, ship, errors; on the failed path
there is no ship key (modeled as none). -/
structure RunResult where
  status : String
  order_id : String
  step : String
  ship : Option String
  errors : List String
deriving DecidableEq, Repr

/-- The mutable instance state of OrderWorkflow: self.order (the empty
dict before ReceiveOrder returns, modeled as none), self.address,
self.canceled, self.errors, self.step. -/
structure WfState where
  order : Option OrderVal
  address : Addr
  canceled : Bool
  errors : List String
  step : String
deriving DecidableEq, Repr

/-- ShippingWorkflow.run: PreparePackage then DispatchCarrier, each with
its own retry policy; on any failure it signals dispatch_failed(reason)
to its parent and re-raises.  Returns the outcome, the store after its
writes, and the signal sent to the parent (some reason exactly on
failure). -/
def ShippingWorkflow_run (db : DB) (order : OrderVal)
    (prepareAtt dispatchAtt : List (Option String)) :
    Except String String × DB × Option String :=
  match executeActivity db (prepare_package order) prepareAtt with
  | .error m => (.error m, db, some m)
  | .ok (_res, db1) =>
      match executeActivity db1 (dispatch_carrier order) dispatchAtt with
      | .error m => (.error m, db1, some m)
      | .ok (res, db2) => (.ok res, db2, none)

/-- OrderWorkflow.run.  The linear step sequence RECEIVE, VALIDATE,
MANUAL_REVIEW (a pure two-second pause with no observable effect), PAY,
SHIP, with the cancellation checkpoints after RECEIVE, VALIDATE and PAY,
the child shipping workflow on SHIP, and the surrounding try/except that
turns any raised exception into a failed result after appending its
message to self.errors.  Returns the result dict, the final store, and
the final instance state. -/
def OrderWorkflow_run (db0 : DB) (order_id payment_id : String)
    (addr : Addr) (env : Env) : RunResult × DB × WfState :=
  match executeActivity db0 (receive_order order_id env.fetched) env.receiveAtt with
  | .error m =>
      (⟨"failed", order_id, "RECEIVE", none, [m]⟩, db0,
       ⟨none, lastAddr env.addrSigs, env.cancelFrom.isSome, [m], "RECEIVE"⟩)
  | .ok (ord, db1) =>
      if canceledAt env 1 then
        (⟨"failed", order_id, "RECEIVE", none, ["Canceled"]⟩, db1,
         ⟨some ord, lastAddr env.addrSigs, env.cancelFrom.isSome, ["Canceled"], "RECEIVE"⟩)
      else
        match executeActivity db1 (validate_order ord) env.validateAtt with
        | .error m =>
            (⟨"failed", order_id, "VALIDATE", none, [m]⟩, db1,
             ⟨some ord, lastAddr env.addrSigs, env.cancelFrom.isSome, [m], "VALIDATE"⟩)
        | .ok (_ok, db2) =>
            if canceledAt env 2 then
              (⟨"failed", order_id, "VALIDATE", none, ["Canceled"]⟩, db2,
               ⟨some ord, lastAddr env.addrSigs, env.cancelFrom.isSome, ["Canceled"], "VALIDATE"⟩)
            else
              match executeActivity db2 (charge_payment db2 ord payment_id) env.payAtt with
              | .error m =>
                  (⟨"failed", order_id, "PAY", none, [m]⟩, db2,
                   ⟨some ord, lastAddr env.addrSigs, env.cancelFrom.isSome, [m], "PAY"⟩)
              | .ok (_cr, db3) =>
                  if canceledAt env 3 then
                    (⟨"failed", order_id, "PAY", none, ["Canceled"]⟩, db3,
                     ⟨some ord, lastAddr env.addrSigs, env.cancelFrom.isSome, ["Canceled"], "PAY"⟩)
                  else
                    match ShippingWorkflow_run db3 ord env.prepareAtt env.dispatchAtt with
                    | (.ok res, db4, sig) =>
                        (⟨"completed", order_id, "SHIP", some res, dispatchErrors sig⟩, db4,
                         ⟨some ord, lastAddr env.addrSigs, env.cancelFrom.isSome,
                          dispatchErrors sig, "SHIP"⟩)
                    | (.error m, dbS, sig) =>
                        (⟨"failed", order_id, "SHIP", none, dispatchErrors sig ++ [m]⟩, dbS,
                         ⟨some ord, lastAddr env.addrSigs, env.cancelFrom.isSome,
                          dispatchErrors sig ++ [m], "SHIP"⟩)

/-- The dict returned by the status query. -/
structure StatusResult where
  order : Option OrderVal
  step : String
  errors : List String
  canceled : Bool
deriving DecidableEq, Repr

/-- OrderWorkflow.status: a side-effect-free projection of the instance
state. -/
def OrderWorkflow_status (s : WfState) : StatusResult :=
  ⟨s.order, s.step, s.errors, s.canceled⟩

/-- The persisted state of an order, read back from the store. -/
def orderStateOf (db : DB) (id : String) : Option String :=
  (lookupOrder db id).map (fun r => r.state)

/-- Number of payment rows stored under a payment id. -/
def paymentCount (db : DB) (pid : String) : Nat :=
  (db.payments.filter (fun r => r.payment_id == pid)).length

/-- Number of payment-collaborator invocations a ChargePayment attempt
performs against this store: the idempotency check precedes the charge,
so the gateway is called exactly when no row exists for the id. -/
def chargeInvokes (db : DB) (pid : String) : Nat :=
  if (lookupPayment db pid).isSome then 0 else 1

/-- One full ChargePayment attempt: the body run against the store, its
writes applied. -/
def chargeExec (db : DB) (order : OrderVal) (pid : String)
    (flaky : Option String) : Except String (ChargeResult × DB) :=
  runBody db (charge_payment db order pid flaky)

/- ---------- helper lemmas ---------- -/

theorem applyWrites_nil (db : DB) : applyWrites db [] = db := rfl

theorem applyWrites_cons (db : DB) (w : WriteOp) (ws : List WriteOp) :
    applyWrites db (w :: ws) = applyWrites (applyWrite db w) ws := rfl

theorem runBody_ok_inv {α : Type} {db : DB}
    {r : Except String (α × List WriteOp)} {a : α} {db' : DB}
    (h : runBody db r = .ok (a, db')) :
    ∃ ws, r = .ok (a, ws) ∧ db' = applyWrites db ws := by
  cases r with
  | error m => simp [runBody] at h
  | ok pr =>
      obtain ⟨a0, ws⟩ := pr
      simp only [runBody] at h
      obtain ⟨h1, h2⟩ := Prod.mk.injEq .. ▸ Except.ok.injEq .. ▸ h
      exact ⟨ws, by rw [h1], h2.symm⟩

theorem executeActivity_ok_inv {α : Type} {db : DB}
    {body : Option String → Except String (α × List WriteOp)}
    {atts : List (Option String)} {a : α} {db' : DB}
    (h : executeActivity db body atts = .ok (a, db')) :
    ∃ f ws, body f = .ok (a, ws) ∧ db' = applyWrites db ws := by
  induction atts with
  | nil => simp [executeActivity] at h
  | cons f rest ih =>
      cases rest with
      | nil =>
          simp only [executeActivity] at h
          obtain ⟨ws, hw, hdb⟩ := runBody_ok_inv h
          exact ⟨f, ws, hw, hdb⟩
      | cons f2 rest2 =>
          simp only [executeActivity] at h
          cases hr : runBody db (body f) with
          | ok r0 =>
              rw [hr] at h
              obtain ⟨a0, db0⟩ := r0
              simp only at h
              obtain ⟨h1, h2⟩ := Prod.mk.injEq .. ▸ Except.ok.injEq .. ▸ h
              obtain ⟨ws, hw, hdb⟩ := runBody_ok_inv hr
              exact ⟨f, ws, by rw [hw, h1], by rw [← h2, hdb]⟩
          | error m =>
              rw [hr] at h
              simp only at h
              exact ih h

theorem executeActivity_error_of_all {α : Type} (db : DB)
    (body : Option String → Except String (α × List WriteOp))
    (atts : List (Option String))
    (h : ∀ f, ∃ m, body f = .error m) :
    ∃ m, executeActivity db body atts = .error m := by
  induction atts with
  | nil => exact ⟨"activity was not attempted", rfl⟩
  | cons f rest ih =>
      obtain ⟨m, hm⟩ := h f
      cases rest with
      | nil => exact ⟨m, by simp [executeActivity, runBody, hm]⟩
      | cons f2 rest2 =>
          obtain ⟨m2, hm2⟩ := ih
          exact ⟨m2, by simp [executeActivity, runBody, hm, hm2]⟩

theorem receive_order_ok_inv {oid : String} {fetched : List Item}
    {f : Option String} {a : OrderVal} {ws : List WriteOp}
    (h : receive_order oid fetched f = .ok (a, ws)) :
    f = none ∧ a = ⟨oid, fetched⟩ ∧
      ws = [.insertOrderIgnore oid "RECEIVED" emptyJson,
            .insertEvent oid "order_received" (.orderP ⟨oid, fetched⟩)] := by
  cases f with
  | some m => simp [receive_order, order_received] at h
  | none =>
      simp only [receive_order, order_received] at h
      obtain ⟨h1, h2⟩ := Prod.mk.injEq .. ▸ Except.ok.injEq .. ▸ h
      exact ⟨rfl, h1.symm, h2.symm⟩

theorem validate_order_ok_inv {ord : OrderVal} {f : Option String}
    {a : Bool} {ws : List WriteOp}
    (h : validate_order ord f = .ok (a, ws)) :
    f = none ∧ ord.items ≠ [] ∧ a = true ∧
      ws = [.updateOrderState ord.order_id "VALIDATED",
            .insertEvent ord.order_id "order_validated" (.okP true)] := by
  cases f with
  | some m => simp [validate_order, order_validated] at h
  | none =>
      simp only [validate_order, order_validated] at h
      by_cases he : ord.items.isEmpty
      · simp [he] at h
      · simp only [he, if_neg, Bool.false_eq_true, reduceIte] at h
        obtain ⟨h1, h2⟩ := Prod.mk.injEq .. ▸ Except.ok.injEq .. ▸ h
        refine ⟨rfl, ?_, h1.symm, h2.symm⟩
        simpa [List.isEmpty_iff] using he

theorem charge_payment_ok_inv {db : DB} {ord : OrderVal} {pid : String}
    {f : Option String} {a : ChargeResult} {ws : List WriteOp}
    (h : charge_payment db ord pid f = .ok (a, ws)) :
    (∃ p, lookupPayment db pid = some p ∧ a = ⟨p.status, p.amount, true⟩ ∧ ws = []) ∨
    (lookupPayment db pid = none ∧ f = none ∧
      a = ⟨"charged", (ord.items.map Item.qty).sum, false⟩ ∧
      ws = [.insertPaymentIgnore pid ord.order_id "charged" ((ord.items.map Item.qty).sum),
            .updateOrderState ord.order_id "PAID",
            .insertEvent ord.order_id "payment_charged"
              (.chargeP pid "charged" ((ord.items.map Item.qty).sum))]) := by
  cases hp : lookupPayment db pid with
  | some p =>
      left
      simp only [charge_payment, hp] at h
      obtain ⟨h1, h2⟩ := Prod.mk.injEq .. ▸ Except.ok.injEq .. ▸ h
      exact ⟨p, rfl, h1.symm, h2.symm⟩
  | none =>
      right
      cases f with
      | some m => simp [charge_payment, hp, payment_charged] at h
      | none =>
          simp only [charge_payment, hp, payment_charged] at h
          obtain ⟨h1, h2⟩ := Prod.mk.injEq .. ▸ Except.ok.injEq .. ▸ h
          exact ⟨rfl, rfl, h1.symm, h2.symm⟩

theorem prepare_package_ok_inv {ord : OrderVal} {f : Option String}
    {a : String} {ws : List WriteOp}
    (h : prepare_package ord f = .ok (a, ws)) :
    f = none ∧ a = "Package ready" ∧
      ws = [.insertEvent ord.order_id "package_prepared" (.resultP "Package ready")] := by
  cases f with
  | some m => simp [prepare_package, package_prepared] at h
  | none =>
      simp only [prepare_package, package_prepared] at h
      obtain ⟨h1, h2⟩ := Prod.mk.injEq .. ▸ Except.ok.injEq .. ▸ h
      exact ⟨rfl, h1.symm, h2.symm⟩

theorem dispatch_carrier_ok_inv {ord : OrderVal} {f : Option String}
    {a : String} {ws : List WriteOp}
    (h : dispatch_carrier ord f = .ok (a, ws)) :
    f = none ∧ a = "Dispatched" ∧
      ws = [.updateOrderState ord.order_id "SHIPPED",
            .insertEvent ord.order_id "carrier_dispatched" (.resultP "Dispatched")] := by
  cases f with
  | some m => simp [dispatch_carrier, carrier_dispatched] at h
  | none =>
      simp only [dispatch_carrier, carrier_dispatched] at h
      obtain ⟨h1, h2⟩ := Prod.mk.injEq .. ▸ Except.ok.injEq .. ▸ h
      exact ⟨rfl, h1.symm, h2.symm⟩

theorem orderStateOf_insertEvent (db : DB) (oid ty : String) (pl : Payload)
    (id : String) :
    orderStateOf (applyWrite db (.insertEvent oid ty pl)) id = orderStateOf db id := rfl

theorem orderStateOf_insertPaymentIgnore (db : DB) (pid oid st : String)
    (amt : Nat) (id : String) :
    orderStateOf (applyWrite db (.insertPaymentIgnore pid oid st amt)) id =
      orderStateOf db id := by
  simp only [applyWrite]
  split <;> rfl

theorem find?_map_update (l : List OrderRow) (id st : String) :
    (l.map (fun r => if r.id == id then { r with state := st } else r)).find?
        (fun r => r.id == id) =
      (l.find? (fun r => r.id == id)).map
        (fun r => ⟨r.id, st, r.address_json⟩) := by
  rw [List.find?_map]
  have hpf : ((fun r => r.id == id) ∘
      (fun r => if r.id == id then ({ r with state := st } : OrderRow) else r)) =
      (fun r => r.id == id) := by
    funext r
    show ((if r.id == id then ({ r with state := st } : OrderRow) else r).id == id) =
      (r.id == id)
    by_cases h : (r.id == id) = true
    · rw [if_pos h]
    · rw [if_neg h]
  rw [hpf]
  cases hf : l.find? (fun r => r.id == id) with
  | none => rfl
  | some r =>
      have hr : (r.id == id) = true := by simpa using List.find?_some hf
      have hq : r.id = id := by simpa using hr
      simp [hr, hq]

theorem orderStateOf_update_self (db : DB) (id st : String) :
    orderStateOf (applyWrite db (.updateOrderState id st)) id =
      if (lookupOrder db id).isSome then some st else none := by
  show ((db.orders.map (fun r => if r.id == id then { r with state := st } else r)).find?
      (fun r => r.id == id)).map (fun r => r.state) =
    if (db.orders.find? (fun r => r.id == id)).isSome then some st else none
  rw [find?_map_update]
  cases db.orders.find? (fun r => r.id == id) <;> rfl

theorem orderStateOf_insert_self (db : DB) (id st aj : String) :
    orderStateOf (applyWrite db (.insertOrderIgnore id st aj)) id =
      some ((orderStateOf db id).getD st) := by
  simp only [applyWrite]
  cases h : lookupOrder db id with
  | some r =>
      simp only [h, Option.isSome_some, if_pos]
      unfold orderStateOf
      rw [h]
      rfl
  | none =>
      simp only [h, Option.isSome_none, Bool.false_eq_true, reduceIte]
      have key : orderStateOf { db with orders := db.orders ++ [⟨id, st, aj⟩] } id
          = some st := by
        show ((db.orders ++ [(⟨id, st, aj⟩ : OrderRow)]).find? (fun r => r.id == id)).map
            (fun r => r.state) = some st
        have h2 : db.orders.find? (fun r => r.id == id) = none := h
        rw [List.find?_append, h2]
        simp [List.find?]
      rw [key]
      unfold orderStateOf
      rw [h]
      rfl

theorem lookupPayment_insertEvent (db : DB) (oid ty : String) (pl : Payload)
    (pid : String) :
    lookupPayment (applyWrite db (.insertEvent oid ty pl)) pid =
      lookupPayment db pid := rfl

theorem lookupPayment_updateOrderState (db : DB) (id st pid : String) :
    lookupPayment (applyWrite db (.updateOrderState id st)) pid =
      lookupPayment db pid := rfl

theorem lookupPayment_insertOrderIgnore (db : DB) (id st aj pid : String) :
    lookupPayment (applyWrite db (.insertOrderIgnore id st aj)) pid =
      lookupPayment db pid := by
  simp only [applyWrite]
  split <;> rfl

theorem lookupPayment_insert_self (db : DB) (pid oid st : String) (amt : Nat)
    (h : lookupPayment db pid = none) :
    lookupPayment (applyWrite db (.insertPaymentIgnore pid oid st amt)) pid =
      some ⟨pid, oid, st, amt⟩ := by
  simp only [applyWrite]
  simp only [h, Option.isSome_none, Bool.false_eq_true, reduceIte]
  show (db.payments ++ [(⟨pid, oid, st, amt⟩ : PaymentRow)]).find?
      (fun r => r.payment_id == pid) = some ⟨pid, oid, st, amt⟩
  have h2 : db.payments.find? (fun r => r.payment_id == pid) = none := h
  rw [List.find?_append, h2]
  simp [List.find?]

theorem paymentCount_insert_self (db : DB) (pid oid st : String) (amt : Nat)
    (h : lookupPayment db pid = none) :
    paymentCount (applyWrite db (.insertPaymentIgnore pid oid st amt)) pid = 1 := by
  have hnil : db.payments.filter (fun r => r.payment_id == pid) = [] := by
    rw [List.filter_eq_nil_iff]
    intro a ha
    have := List.find?_eq_none.mp h a ha
    simpa using this
  simp only [applyWrite]
  simp only [h, Option.isSome_none, Bool.false_eq_true, reduceIte]
  show ((db.payments ++ [(⟨pid, oid, st, amt⟩ : PaymentRow)]).filter
      (fun r => r.payment_id == pid)).length = 1
  rw [List.filter_append db.payments, hnil]
  simp [List.filter]

theorem paymentCount_insertEvent (db : DB) (oid ty : String) (pl : Payload)
    (pid : String) :
    paymentCount (applyWrite db (.insertEvent oid ty pl)) pid =
      paymentCount db pid := rfl

theorem paymentCount_updateOrderState (db : DB) (id st pid : String) :
    paymentCount (applyWrite db (.updateOrderState id st)) pid =
      paymentCount db pid := rfl

theorem shipping_error_sig {db : DB} {ord : OrderVal}
    {pa da : List (Option String)} {m : String} {dbS : DB} {sig : Option String}
    (h : ShippingWorkflow_run db ord pa da = (.error m, dbS, sig)) :
    sig = some m := by
  unfold ShippingWorkflow_run at h
  cases h1 : executeActivity db (prepare_package ord) pa with
  | error m1 =>
      rw [h1] at h
      simp only [Prod.mk.injEq, Except.error.injEq] at h
      rw [← h.2.2, h.1]
  | ok r1 =>
      obtain ⟨res1, db1⟩ := r1
      rw [h1] at h
      simp only at h
      cases h2 : executeActivity db1 (dispatch_carrier ord) da with
      | error m2 =>
          rw [h2] at h
          simp only [Prod.mk.injEq, Except.error.injEq] at h
          rw [← h.2.2, h.1]
      | ok r2 =>
          obtain ⟨res2, db2⟩ := r2
          rw [h2] at h
          simp at h

/- ---------- claim theorems ---------- -/

/-- C10: whenever ChargePayment finds an existing payment row for the
given payment id (the idempotent path), it performs no writes at all: its
SQL statement list is empty and the store is returned unchanged, so the
orders table is not updated (no PAID state) and no payment_charged event
is appended; its only effect is the returned value, the stored status and
amount tagged idempotent. -/
theorem charge_idempotent_path_pure
    (db : DB) (ord : OrderVal) (pid : String) (p : PaymentRow)
    (f : Option String) (hp : lookupPayment db pid = some p) :
    charge_payment db ord pid f = .ok (⟨p.status, p.amount, true⟩, []) ∧
    chargeExec db ord pid f = .ok (⟨p.status, p.amount, true⟩, db) := by
  constructor
  · simp only [charge_payment, hp]
  · simp only [chargeExec, charge_payment, hp, runBody, applyWrites, List.foldl]

/-- Witness for C10 at a concrete store holding one payment row. -/
theorem charge_idempotent_path_pure_witness :
    charge_payment ⟨[], [⟨"P1", "O1", "charged", 1⟩], []⟩ ⟨"O1", []⟩ "P1" none =
      .ok (⟨"charged", 1, true⟩, []) ∧
    chargeExec ⟨[], [⟨"P1", "O1", "charged", 1⟩], []⟩ ⟨"O1", []⟩ "P1" none =
      .ok (⟨"charged", 1, true⟩, ⟨[], [⟨"P1", "O1", "charged", 1⟩], []⟩) :=
  charge_idempotent_path_pure ⟨[], [⟨"P1", "O1", "charged", 1⟩], []⟩ ⟨"O1", []⟩
    "P1" ⟨"P1", "O1", "charged", 1⟩ none rfl

/-- C3: the idempotency check precedes any charge attempt (the idempotent
return does not depend on the collaborator oracle, see C10); after a first
successful ChargePayment call, any second sequential call with the same
payment id returns the same status and amount, tagged idempotent, without
changing the store; across the two calls the payment collaborator is
invoked at most once; and if at most one payment row existed for the id
before, at most one exists afterwards. -/
theorem charge_payment_idempotency
    (db : DB) (ord : OrderVal) (pid : String) (f1 : Option String)
    (r1 : ChargeResult) (db1 : DB)
    (hcount : paymentCount db pid ≤ 1)
    (h1 : chargeExec db ord pid f1 = .ok (r1, db1)) :
    (∀ f2, chargeExec db1 ord pid f2 =
        .ok (⟨r1.status, r1.amount, true⟩, db1)) ∧
    chargeInvokes db pid + chargeInvokes db1 pid ≤ 1 ∧
    paymentCount db1 pid ≤ 1 := by
  unfold chargeExec at h1
  obtain ⟨ws, hb, hdb⟩ := runBody_ok_inv h1
  rcases charge_payment_ok_inv hb with ⟨p, hp, ha, hw⟩ | ⟨hnone, hf, ha, hw⟩
  · have hdb1 : db1 = db := by rw [hdb, hw, applyWrites_nil]
    rw [hdb1]
    refine ⟨?_, ?_, hcount⟩
    · intro f2
      have := (charge_idempotent_path_pure db ord pid p f2 hp).2
      rw [this, ha]
    · simp [chargeInvokes, hp]
  · have hlook1 : lookupPayment db1 pid =
        some ⟨pid, ord.order_id, "charged", (ord.items.map Item.qty).sum⟩ := by
      rw [hdb, hw]
      simp only [applyWrites, List.foldl]
      rw [lookupPayment_insertEvent, lookupPayment_updateOrderState,
        lookupPayment_insert_self db pid ord.order_id "charged"
          ((ord.items.map Item.qty).sum) hnone]
    refine ⟨?_, ?_, ?_⟩
    · intro f2
      have := (charge_idempotent_path_pure db1 ord pid
        ⟨pid, ord.order_id, "charged", (ord.items.map Item.qty).sum⟩ f2 hlook1).2
      rw [this, ha]
    · simp [chargeInvokes, hnone, hlook1]
    · rw [hdb, hw]
      simp only [applyWrites, List.foldl]
      rw [paymentCount_insertEvent, paymentCount_updateOrderState,
        paymentCount_insert_self db pid ord.order_id "charged"
          ((ord.items.map Item.qty).sum) hnone]

/-- Witness for C3: a fresh store, a first charge that invokes the
gateway, then the guarantees of the theorem at that input. -/
theorem charge_payment_idempotency_witness :
    (∀ f2, chargeExec ⟨[], [⟨"P1", "O1", "charged", 1⟩],
        [⟨"O1", "payment_charged", .chargeP "P1" "charged" 1⟩]⟩
        ⟨"O1", [⟨"ABC", 1⟩]⟩ "P1" f2 =
      .ok (⟨"charged", 1, true⟩, ⟨[], [⟨"P1", "O1", "charged", 1⟩],
        [⟨"O1", "payment_charged", .chargeP "P1" "charged" 1⟩]⟩)) ∧
    chargeInvokes emptyDB "P1" + chargeInvokes ⟨[], [⟨"P1", "O1", "charged", 1⟩],
        [⟨"O1", "payment_charged", .chargeP "P1" "charged" 1⟩]⟩ "P1" ≤ 1 ∧
    paymentCount ⟨[], [⟨"P1", "O1", "charged", 1⟩],
        [⟨"O1", "payment_charged", .chargeP "P1" "charged" 1⟩]⟩ "P1" ≤ 1 :=
  charge_payment_idempotency emptyDB ⟨"O1", [⟨"ABC", 1⟩]⟩ "P1" none
    ⟨"charged", 1, false⟩
    ⟨[], [⟨"P1", "O1", "charged", 1⟩],
      [⟨"O1", "payment_charged", .chargeP "P1" "charged" 1⟩]⟩
    (by decide) rfl

theorem applyWrite_insertOrder_noop (db : DB) (id st aj : String)
    (h : (lookupOrder db id).isSome) :
    applyWrite db (.insertOrderIgnore id st aj) = db := by
  simp only [applyWrite]
  rw [if_pos h]

theorem lookupOrder_isSome_insert_self (db : DB) (id st aj : String) :
    (lookupOrder (applyWrite db (.insertOrderIgnore id st aj)) id).isSome := by
  have h := orderStateOf_insert_self db id st aj
  unfold orderStateOf at h
  cases hl : lookupOrder (applyWrite db (.insertOrderIgnore id st aj)) id with
  | none => rw [hl] at h; simp at h
  | some r => simp

/-- C8 counterexample: a second ReceiveOrder execution for the same order
id does not leave the events table as after one execution: the orders
insert is ignored, but the event insert is unconditional, so a second
order_received event row is appended and the resulting store differs. -/
theorem receive_order_twice_differs :
    runBody emptyDB (receive_order "O1" [⟨"ABC", 1⟩] none) =
      .ok (⟨"O1", [⟨"ABC", 1⟩]⟩,
        ⟨[⟨"O1", "RECEIVED", emptyJson⟩], [],
         [⟨"O1", "order_received", .orderP ⟨"O1", [⟨"ABC", 1⟩]⟩⟩]⟩) ∧
    runBody (⟨[⟨"O1", "RECEIVED", emptyJson⟩], [],
         [⟨"O1", "order_received", .orderP ⟨"O1", [⟨"ABC", 1⟩]⟩⟩]⟩ : DB)
        (receive_order "O1" [⟨"ABC", 1⟩] none) =
      .ok (⟨"O1", [⟨"ABC", 1⟩]⟩,
        ⟨[⟨"O1", "RECEIVED", emptyJson⟩], [],
         [⟨"O1", "order_received", .orderP ⟨"O1", [⟨"ABC", 1⟩]⟩⟩,
          ⟨"O1", "order_received", .orderP ⟨"O1", [⟨"ABC", 1⟩]⟩⟩]⟩) ∧
    ((⟨[⟨"O1", "RECEIVED", emptyJson⟩], [],
       [⟨"O1", "order_received", .orderP ⟨"O1", [⟨"ABC", 1⟩]⟩⟩,
        ⟨"O1", "order_received", .orderP ⟨"O1", [⟨"ABC", 1⟩]⟩⟩]⟩ : DB) =
      (⟨[⟨"O1", "RECEIVED", emptyJson⟩], [],
        [⟨"O1", "order_received", .orderP ⟨"O1", [⟨"ABC", 1⟩]⟩⟩]⟩ : DB)) = False := by
  refine ⟨rfl, rfl, ?_⟩
  simp

/-- C8 amended: ReceiveOrder is idempotent in its returned payload and in
the orders table (insert-or-ignore keyed by the order id), and it leaves
the payments table alone; but each execution unconditionally appends one
more order_received event row, so the events table is not left as after a
single execution. -/
theorem receive_order_second_run (db : DB) (oid : String)
    (fetched : List Item) (p1 : OrderVal) (db1 : DB)
    (h1 : runBody db (receive_order oid fetched none) = .ok (p1, db1)) :
    runBody db1 (receive_order oid fetched none) =
      .ok (p1, { db1 with events :=
        db1.events ++ [⟨oid, "order_received", .orderP p1⟩] }) := by
  obtain ⟨ws, hb, hdb⟩ := runBody_ok_inv h1
  obtain ⟨-, hp, hw⟩ := receive_order_ok_inv hb
  have hsome : (lookupOrder db1 oid).isSome := by
    rw [hdb, hw]
    simp only [applyWrites, List.foldl]
    rw [show lookupOrder (applyWrite (applyWrite db
        (.insertOrderIgnore oid "RECEIVED" emptyJson))
        (.insertEvent oid "order_received" (.orderP ⟨oid, fetched⟩))) oid =
      lookupOrder (applyWrite db (.insertOrderIgnore oid "RECEIVED" emptyJson)) oid from rfl]
    exact lookupOrder_isSome_insert_self db oid "RECEIVED" emptyJson
  have h2 : runBody db1 (receive_order oid fetched none) =
      Except.ok ((⟨oid, fetched⟩ : OrderVal),
        applyWrites db1 [WriteOp.insertOrderIgnore oid "RECEIVED" emptyJson,
          WriteOp.insertEvent oid "order_received" (Payload.orderP ⟨oid, fetched⟩)]) := rfl
  rw [h2, hp]
  simp only [applyWrites, List.foldl]
  rw [applyWrite_insertOrder_noop db1 oid "RECEIVED" emptyJson hsome]
  rfl

/-- Witness for the amended C8 theorem at a concrete first execution. -/
theorem receive_order_second_run_witness :
    runBody (⟨[⟨"O1", "RECEIVED", emptyJson⟩], [],
        [⟨"O1", "order_received", .orderP ⟨"O1", [⟨"ABC", 1⟩]⟩⟩]⟩ : DB)
        (receive_order "O1" [⟨"ABC", 1⟩] none) =
      .ok (⟨"O1", [⟨"ABC", 1⟩]⟩,
        ⟨[⟨"O1", "RECEIVED", emptyJson⟩], [],
         [⟨"O1", "order_received", .orderP ⟨"O1", [⟨"ABC", 1⟩]⟩⟩,
          ⟨"O1", "order_received", .orderP ⟨"O1", [⟨"ABC", 1⟩]⟩⟩]⟩) :=
  receive_order_second_run emptyDB "O1" [⟨"ABC", 1⟩] ⟨"O1", [⟨"ABC", 1⟩]⟩
    ⟨[⟨"O1", "RECEIVED", emptyJson⟩], [],
     [⟨"O1", "order_received", .orderP ⟨"O1", [⟨"ABC", 1⟩]⟩⟩]⟩ rfl

/-- True when the SQL statement mutates the orders or the payments table. -/
def mutatesTables (w : WriteOp) : Bool :=
  match w with
  | .insertOrderIgnore .. => true
  | .updateOrderState .. => true
  | .insertPaymentIgnore .. => true
  | .insertEvent .. => false

/-- Number of event-table inserts among the SQL statements of a step. -/
def eventCount (ws : List WriteOp) : Nat :=
  (ws.filter (fun w => match w with | .insertEvent .. => true | _ => false)).length

/-- C7 counterexample: the statements of one step are not one atomic unit
of work.  ReceiveOrder executes two autocommitted statements; if the
connection dies after the first, the orders mutation has taken effect and
no event row has been appended, so it is false that the mutation and the
event append either both take effect or neither does. -/
theorem step_writes_not_atomic :
    receive_order "O1" [⟨"ABC", 1⟩] none =
      .ok (⟨"O1", [⟨"ABC", 1⟩]⟩,
        [.insertOrderIgnore "O1" "RECEIVED" emptyJson,
         .insertEvent "O1" "order_received" (.orderP ⟨"O1", [⟨"ABC", 1⟩]⟩)]) ∧
    (applyWrites emptyDB ([WriteOp.insertOrderIgnore "O1" "RECEIVED" emptyJson,
         WriteOp.insertEvent "O1" "order_received"
           (.orderP ⟨"O1", [⟨"ABC", 1⟩]⟩)].take 1)).orders =
      [⟨"O1", "RECEIVED", emptyJson⟩] ∧
    (applyWrites emptyDB ([WriteOp.insertOrderIgnore "O1" "RECEIVED" emptyJson,
         WriteOp.insertEvent "O1" "order_received"
           (.orderP ⟨"O1", [⟨"ABC", 1⟩]⟩)].take 1)).events = [] :=
  ⟨rfl, rfl, rfl⟩

/-- C7 amended: on a successful execution, every activity whose statement
list mutates the orders or payments table appends exactly one event row
(ReceiveOrder, ValidateOrder, the charging path of ChargePayment,
DispatchCarrier; the idempotent ChargePayment path writes nothing and
PreparePackage mutates neither table); the statements are however applied
sequentially without a transaction, so a failure between them can persist
the mutation without the event, and the whole step is then retried. -/
theorem step_mutation_one_event
    (db : DB) (oid pid : String) (fetched : List Item) (ord : OrderVal)
    (f : Option String) :
    (∀ a ws, receive_order oid fetched f = .ok (a, ws) →
      ws.any mutatesTables = true ∧ eventCount ws = 1) ∧
    (∀ a ws, validate_order ord f = .ok (a, ws) →
      ws.any mutatesTables = true ∧ eventCount ws = 1) ∧
    (∀ a ws, charge_payment db ord pid f = .ok (a, ws) →
      ws.any mutatesTables = true → eventCount ws = 1) ∧
    (∀ a ws, prepare_package ord f = .ok (a, ws) →
      ws.any mutatesTables = false ∧ eventCount ws = 1) ∧
    (∀ a ws, dispatch_carrier ord f = .ok (a, ws) →
      ws.any mutatesTables = true ∧ eventCount ws = 1) := by
  refine ⟨?_, ?_, ?_, ?_, ?_⟩
  · intro a ws h
    obtain ⟨-, -, hw⟩ := receive_order_ok_inv h
    subst hw
    exact ⟨rfl, rfl⟩
  · intro a ws h
    obtain ⟨-, -, -, hw⟩ := validate_order_ok_inv h
    subst hw
    exact ⟨rfl, rfl⟩
  · intro a ws h hmut
    rcases charge_payment_ok_inv h with ⟨p, -, -, hw⟩ | ⟨-, -, -, hw⟩
    · subst hw
      simp [List.any] at hmut
    · subst hw
      rfl
  · intro a ws h
    obtain ⟨-, -, hw⟩ := prepare_package_ok_inv h
    subst hw
    exact ⟨rfl, rfl⟩
  · intro a ws h
    obtain ⟨-, -, hw⟩ := dispatch_carrier_ok_inv h
    subst hw
    exact ⟨rfl, rfl⟩

/-- Witness for the amended C7 theorem: the ReceiveOrder conjunct at a
concrete input. -/
theorem step_mutation_one_event_witness :
    [WriteOp.insertOrderIgnore "O1" "RECEIVED" emptyJson,
     WriteOp.insertEvent "O1" "order_received"
       (.orderP ⟨"O1", [⟨"ABC", 1⟩]⟩)].any mutatesTables = true ∧
    eventCount [WriteOp.insertOrderIgnore "O1" "RECEIVED" emptyJson,
     WriteOp.insertEvent "O1" "order_received"
       (.orderP ⟨"O1", [⟨"ABC", 1⟩]⟩)] = 1 :=
  (step_mutation_one_event emptyDB "O1" "P1" [⟨"ABC", 1⟩]
      ⟨"O1", [⟨"ABC", 1⟩]⟩ none).1
    ⟨"O1", [⟨"ABC", 1⟩]⟩ _ rfl

theorem validate_empty_attempt (ord : OrderVal) (h : ord.items = [])
    (f : Option String) : ∃ m, validate_order ord f = .error m := by
  cases f with
  | some m => exact ⟨m, rfl⟩
  | none =>
      refine ⟨"No items to validate", ?_⟩
      simp [validate_order, order_validated, h]

/-- C5: for an order whose item list is empty, the ValidateOrder stub
raises a validation error instead of returning false, every executor
attempt fails whatever the retry oracle says, and the order process ends
failed at step VALIDATE regardless of the number of retry attempts. -/
theorem empty_items_fails_validate
    (db0 : DB) (order_id payment_id : String) (addr : Addr) (env : Env)
    (ord : OrderVal) (db1 : DB)
    (hempty : env.fetched = [])
    (hR : executeActivity db0 (receive_order order_id env.fetched)
      env.receiveAtt = .ok (ord, db1))
    (hc1 : canceledAt env 1 = false) :
    validate_order ord none = .error "No items to validate" ∧
    ∃ m, executeActivity db1 (validate_order ord) env.validateAtt = .error m ∧
      OrderWorkflow_run db0 order_id payment_id addr env =
        (⟨"failed", order_id, "VALIDATE", none, [m]⟩, db1,
         ⟨some ord, lastAddr env.addrSigs, env.cancelFrom.isSome, [m], "VALIDATE"⟩) := by
  obtain ⟨f, ws, hb, -⟩ := executeActivity_ok_inv hR
  obtain ⟨-, hp, -⟩ := receive_order_ok_inv hb
  have hitems : ord.items = [] := by rw [hp, hempty]
  obtain ⟨m, hm⟩ := executeActivity_error_of_all db1 (validate_order ord)
    env.validateAtt (validate_empty_attempt ord hitems)
  refine ⟨?_, m, hm, ?_⟩
  · simp [validate_order, order_validated, hitems]
  · simp only [OrderWorkflow_run, hR, hc1, Bool.false_eq_true, reduceIte, hm]

/-- Witness for C5: a concrete run whose order source serves an empty
item list; the executor is given three failing-free attempts and still
the process fails at VALIDATE with the validation error. -/
theorem empty_items_fails_validate_witness :
    validate_order ⟨"O1", []⟩ none = .error "No items to validate" ∧
    ∃ m, executeActivity
        (⟨[⟨"O1", "RECEIVED", emptyJson⟩], [],
          [⟨"O1", "order_received", .orderP ⟨"O1", []⟩⟩]⟩ : DB)
        (validate_order ⟨"O1", []⟩) [none, none, none] = .error m ∧
      OrderWorkflow_run emptyDB "O1" "P1" []
          ⟨[], [none], [none, none, none], [none], [none], [none], none, []⟩ =
        (⟨"failed", "O1", "VALIDATE", none, [m]⟩,
         ⟨[⟨"O1", "RECEIVED", emptyJson⟩], [],
          [⟨"O1", "order_received", .orderP ⟨"O1", []⟩⟩]⟩,
         ⟨some ⟨"O1", []⟩, [], false, [m], "VALIDATE"⟩) :=
  empty_items_fails_validate emptyDB "O1" "P1" []
    ⟨[], [none], [none, none, none], [none], [none], [none], none, []⟩
    ⟨"O1", []⟩
    ⟨[⟨"O1", "RECEIVED", emptyJson⟩], [],
     [⟨"O1", "order_received", .orderP ⟨"O1", []⟩⟩]⟩
    rfl rfl rfl

theorem lookupOrder_isSome_of_state {db : DB} {id st : String}
    (h : orderStateOf db id = some st) : (lookupOrder db id).isSome := by
  unfold orderStateOf at h
  cases hl : lookupOrder db id with
  | none => rw [hl] at h; simp at h
  | some r => simp

theorem lookupOrder_insertPaymentIgnore (db : DB) (pid oid st : String)
    (amt : Nat) (id : String) :
    lookupOrder (applyWrite db (.insertPaymentIgnore pid oid st amt)) id =
      lookupOrder db id := by
  simp only [applyWrite]
  split <;> rfl

/-- After a successful ReceiveOrder execution the order row exists; a
fresh order gets state RECEIVED, a pre-existing row keeps its state. -/
theorem receive_exec_state {db0 db1 : DB} {oid : String} {fetched : List Item}
    {atts : List (Option String)} {ord : OrderVal}
    (hR : executeActivity db0 (receive_order oid fetched) atts = .ok (ord, db1)) :
    orderStateOf db1 oid = some ((orderStateOf db0 oid).getD "RECEIVED") := by
  obtain ⟨f, ws, hb, hdb⟩ := executeActivity_ok_inv hR
  obtain ⟨-, -, hw⟩ := receive_order_ok_inv hb
  rw [hdb, hw]
  simp only [applyWrites, List.foldl]
  rw [orderStateOf_insertEvent, orderStateOf_insert_self]

/-- A successful ValidateOrder execution sets the order state to
VALIDATED (given that the order row exists). -/
theorem validate_exec_state {db1 db2 : DB} {ord : OrderVal} {b : Bool}
    {atts : List (Option String)}
    (hV : executeActivity db1 (validate_order ord) atts = .ok (b, db2))
    (hsome : (lookupOrder db1 ord.order_id).isSome) :
    orderStateOf db2 ord.order_id = some "VALIDATED" := by
  obtain ⟨f, ws, hb, hdb⟩ := executeActivity_ok_inv hV
  obtain ⟨-, -, -, hw⟩ := validate_order_ok_inv hb
  rw [hdb, hw]
  simp only [applyWrites, List.foldl]
  rw [orderStateOf_insertEvent, orderStateOf_update_self, if_pos hsome]

/-- A successful ChargePayment execution either sets the order state to
PAID (charging path) or leaves the store untouched (idempotent path). -/
theorem charge_exec_state {db2 db3 : DB} {ord : OrderVal} {pid : String}
    {cr : ChargeResult} {atts : List (Option String)}
    (hP : executeActivity db2 (charge_payment db2 ord pid) atts = .ok (cr, db3))
    (hsome : (lookupOrder db2 ord.order_id).isSome) :
    orderStateOf db3 ord.order_id = some "PAID" ∨
      orderStateOf db3 ord.order_id = orderStateOf db2 ord.order_id := by
  obtain ⟨f, ws, hb, hdb⟩ := executeActivity_ok_inv hP
  rcases charge_payment_ok_inv hb with ⟨p, -, -, hw⟩ | ⟨-, -, -, hw⟩
  · right
    rw [hdb, hw, applyWrites_nil]
  · left
    rw [hdb, hw]
    simp only [applyWrites, List.foldl]
    rw [orderStateOf_insertEvent, orderStateOf_update_self, if_pos]
    rw [lookupOrder_insertPaymentIgnore]
    exact hsome

/-- PreparePackage writes only an event row, so it never changes any
order state. -/
theorem prepare_exec_state {db3 db4 : DB} {ord : OrderVal} {pr : String}
    {atts : List (Option String)}
    (hPre : executeActivity db3 (prepare_package ord) atts = .ok (pr, db4))
    (id : String) :
    orderStateOf db4 id = orderStateOf db3 id := by
  obtain ⟨f, ws, hb, hdb⟩ := executeActivity_ok_inv hPre
  obtain ⟨-, -, hw⟩ := prepare_package_ok_inv hb
  rw [hdb, hw]
  simp only [applyWrites, List.foldl]
  rw [orderStateOf_insertEvent]

/-- A successful DispatchCarrier execution sets the order state to
SHIPPED (given that the order row exists). -/
theorem dispatch_exec_state {db4 db5 : DB} {ord : OrderVal} {res : String}
    {atts : List (Option String)}
    (hD : executeActivity db4 (dispatch_carrier ord) atts = .ok (res, db5))
    (hsome : (lookupOrder db4 ord.order_id).isSome) :
    orderStateOf db5 ord.order_id = some "SHIPPED" := by
  obtain ⟨f, ws, hb, hdb⟩ := executeActivity_ok_inv hD
  obtain ⟨-, -, hw⟩ := dispatch_carrier_ok_inv hb
  rw [hdb, hw]
  simp only [applyWrites, List.foldl]
  rw [orderStateOf_insertEvent, orderStateOf_update_self, if_pos hsome]

/-- C1: for every order id and payment id, if no cancel signal is
received and every activity execution succeeds, OrderWorkflow.run returns
exactly the completed dict with the order id, step SHIP, the
DispatchCarrier result, and an empty error list; and the persisted order
state is SHIPPED. -/
theorem happy_path_completes
    (db0 : DB) (order_id payment_id : String) (addr : Addr) (env : Env)
    (ord : OrderVal) (b : Bool) (cr : ChargeResult) (pr res : String)
    (db1 db2 db3 db4 db5 : DB)
    (hc : env.cancelFrom = none)
    (hR : executeActivity db0 (receive_order order_id env.fetched)
      env.receiveAtt = .ok (ord, db1))
    (hV : executeActivity db1 (validate_order ord) env.validateAtt = .ok (b, db2))
    (hP : executeActivity db2 (charge_payment db2 ord payment_id)
      env.payAtt = .ok (cr, db3))
    (hPre : executeActivity db3 (prepare_package ord) env.prepareAtt = .ok (pr, db4))
    (hD : executeActivity db4 (dispatch_carrier ord) env.dispatchAtt = .ok (res, db5)) :
    OrderWorkflow_run db0 order_id payment_id addr env =
      (⟨"completed", order_id, "SHIP", some res, []⟩, db5,
       ⟨some ord, lastAddr env.addrSigs, false, [], "SHIP"⟩) ∧
    orderStateOf db5 order_id = some "SHIPPED" := by
  have hc1 : canceledAt env 1 = false := by simp [canceledAt, hc]
  have hc2 : canceledAt env 2 = false := by simp [canceledAt, hc]
  have hc3 : canceledAt env 3 = false := by simp [canceledAt, hc]
  have hship : ShippingWorkflow_run db3 ord env.prepareAtt env.dispatchAtt =
      (.ok res, db5, none) := by
    simp only [ShippingWorkflow_run, hPre, hD]
  constructor
  · simp only [OrderWorkflow_run, hR, hc1, hc2, hc3, Bool.false_eq_true,
      reduceIte, hV, hP, hship, hc, Option.isSome_none, dispatchErrors]
  · obtain ⟨fR, wsR, hbR, hdbR⟩ := executeActivity_ok_inv hR
    obtain ⟨-, hordv, -⟩ := receive_order_ok_inv hbR
    have hoid : ord.order_id = order_id := by rw [hordv]
    have hs1 : orderStateOf db1 order_id =
        some ((orderStateOf db0 order_id).getD "RECEIVED") := receive_exec_state hR
    have hs1b : (lookupOrder db1 ord.order_id).isSome := by
      rw [hoid]
      exact lookupOrder_isSome_of_state hs1
    have hs2 := validate_exec_state hV hs1b
    have hs2b : (lookupOrder db2 ord.order_id).isSome :=
      lookupOrder_isSome_of_state hs2
    have hs3v : ∃ s, orderStateOf db3 ord.order_id = some s := by
      rcases charge_exec_state hP hs2b with hs3 | hs3
      · exact ⟨"PAID", hs3⟩
      · exact ⟨"VALIDATED", by rw [hs3, hs2]⟩
    obtain ⟨s3, hs3⟩ := hs3v
    have hs4 : orderStateOf db4 ord.order_id = some s3 := by
      rw [prepare_exec_state hPre ord.order_id, hs3]
    have hs5 := dispatch_exec_state hD (lookupOrder_isSome_of_state hs4)
    rw [hoid] at hs5
    exact hs5

/-- Witness for C1: the specification scenario, order O1, payment P1, one
item, no signals, all collaborators succeeding on the first attempt. -/
theorem happy_path_completes_witness :
    OrderWorkflow_run emptyDB "O1" "P1" []
        ⟨[⟨"ABC", 1⟩], [none], [none], [none], [none], [none], none, []⟩ =
      (⟨"completed", "O1", "SHIP", some "Dispatched", []⟩,
       ⟨[⟨"O1", "SHIPPED", emptyJson⟩],
        [⟨"P1", "O1", "charged", 1⟩],
        [⟨"O1", "order_received", .orderP ⟨"O1", [⟨"ABC", 1⟩]⟩⟩,
         ⟨"O1", "order_validated", .okP true⟩,
         ⟨"O1", "payment_charged", .chargeP "P1" "charged" 1⟩,
         ⟨"O1", "package_prepared", .resultP "Package ready"⟩,
         ⟨"O1", "carrier_dispatched", .resultP "Dispatched"⟩]⟩,
       ⟨some ⟨"O1", [⟨"ABC", 1⟩]⟩, [], false, [], "SHIP"⟩) ∧
    orderStateOf
      ⟨[⟨"O1", "SHIPPED", emptyJson⟩],
       [⟨"P1", "O1", "charged", 1⟩],
       [⟨"O1", "order_received", .orderP ⟨"O1", [⟨"ABC", 1⟩]⟩⟩,
        ⟨"O1", "order_validated", .okP true⟩,
        ⟨"O1", "payment_charged", .chargeP "P1" "charged" 1⟩,
        ⟨"O1", "package_prepared", .resultP "Package ready"⟩,
        ⟨"O1", "carrier_dispatched", .resultP "Dispatched"⟩]⟩ "O1" =
      some "SHIPPED" :=
  happy_path_completes emptyDB "O1" "P1" []
    ⟨[⟨"ABC", 1⟩], [none], [none], [none], [none], [none], none, []⟩
    ⟨"O1", [⟨"ABC", 1⟩]⟩ true ⟨"charged", 1, false⟩ "Package ready" "Dispatched"
    ⟨[⟨"O1", "RECEIVED", emptyJson⟩], [],
     [⟨"O1", "order_received", .orderP ⟨"O1", [⟨"ABC", 1⟩]⟩⟩]⟩
    ⟨[⟨"O1", "VALIDATED", emptyJson⟩], [],
     [⟨"O1", "order_received", .orderP ⟨"O1", [⟨"ABC", 1⟩]⟩⟩,
      ⟨"O1", "order_validated", .okP true⟩]⟩
    ⟨[⟨"O1", "PAID", emptyJson⟩], [⟨"P1", "O1", "charged", 1⟩],
     [⟨"O1", "order_received", .orderP ⟨"O1", [⟨"ABC", 1⟩]⟩⟩,
      ⟨"O1", "order_validated", .okP true⟩,
      ⟨"O1", "payment_charged", .chargeP "P1" "charged" 1⟩]⟩
    ⟨[⟨"O1", "PAID", emptyJson⟩], [⟨"P1", "O1", "charged", 1⟩],
     [⟨"O1", "order_received", .orderP ⟨"O1", [⟨"ABC", 1⟩]⟩⟩,
      ⟨"O1", "order_validated", .okP true⟩,
      ⟨"O1", "payment_charged", .chargeP "P1" "charged" 1⟩,
      ⟨"O1", "package_prepared", .resultP "Package ready"⟩]⟩
    ⟨[⟨"O1", "SHIPPED", emptyJson⟩], [⟨"P1", "O1", "charged", 1⟩],
     [⟨"O1", "order_received", .orderP ⟨"O1", [⟨"ABC", 1⟩]⟩⟩,
      ⟨"O1", "order_validated", .okP true⟩,
      ⟨"O1", "payment_charged", .chargeP "P1" "charged" 1⟩,
      ⟨"O1", "package_prepared", .resultP "Package ready"⟩,
      ⟨"O1", "carrier_dispatched", .resultP "Dispatched"⟩]⟩
    rfl rfl rfl rfl rfl rfl

/-- C2: OrderWorkflow.run is a total function (the try/except never
re-raises): its result always carries a status that is completed or
failed, the order id, the step, and on failure a non-empty error list;
and for an activity failure at any step (after its retries are
exhausted), the result is the failed dict naming that step with the
failure message appended to the accumulated errors. -/
theorem run_never_raises
    (db0 : DB) (order_id payment_id : String) (addr : Addr) (env : Env) :
    ((OrderWorkflow_run db0 order_id payment_id addr env).1.status = "completed" ∨
     (OrderWorkflow_run db0 order_id payment_id addr env).1.status = "failed") ∧
    (OrderWorkflow_run db0 order_id payment_id addr env).1.order_id = order_id ∧
    ((OrderWorkflow_run db0 order_id payment_id addr env).1.status = "failed" →
      (OrderWorkflow_run db0 order_id payment_id addr env).1.errors ≠ []) ∧
    (∀ m, executeActivity db0 (receive_order order_id env.fetched)
        env.receiveAtt = .error m →
      (OrderWorkflow_run db0 order_id payment_id addr env).1 =
        ⟨"failed", order_id, "RECEIVE", none, [m]⟩) ∧
    (∀ ord db1 m,
      executeActivity db0 (receive_order order_id env.fetched)
        env.receiveAtt = .ok (ord, db1) →
      canceledAt env 1 = false →
      executeActivity db1 (validate_order ord) env.validateAtt = .error m →
      (OrderWorkflow_run db0 order_id payment_id addr env).1 =
        ⟨"failed", order_id, "VALIDATE", none, [m]⟩) ∧
    (∀ ord db1 b db2 m,
      executeActivity db0 (receive_order order_id env.fetched)
        env.receiveAtt = .ok (ord, db1) →
      canceledAt env 1 = false →
      executeActivity db1 (validate_order ord) env.validateAtt = .ok (b, db2) →
      canceledAt env 2 = false →
      executeActivity db2 (charge_payment db2 ord payment_id)
        env.payAtt = .error m →
      (OrderWorkflow_run db0 order_id payment_id addr env).1 =
        ⟨"failed", order_id, "PAY", none, [m]⟩) ∧
    (∀ ord db1 b db2 cr db3 m dbS sig,
      executeActivity db0 (receive_order order_id env.fetched)
        env.receiveAtt = .ok (ord, db1) →
      canceledAt env 1 = false →
      executeActivity db1 (validate_order ord) env.validateAtt = .ok (b, db2) →
      canceledAt env 2 = false →
      executeActivity db2 (charge_payment db2 ord payment_id)
        env.payAtt = .ok (cr, db3) →
      canceledAt env 3 = false →
      ShippingWorkflow_run db3 ord env.prepareAtt env.dispatchAtt =
        (.error m, dbS, sig) →
      (OrderWorkflow_run db0 order_id payment_id addr env).1 =
        ⟨"failed", order_id, "SHIP", none, dispatchErrors sig ++ [m]⟩) := by
  refine ⟨?_, ?_, ?_, ?_, ?_, ?_, ?_⟩
  · unfold OrderWorkflow_run
    repeat' split
    all_goals simp
  · unfold OrderWorkflow_run
    repeat' split
    all_goals simp
  · unfold OrderWorkflow_run
    repeat' split
    all_goals simp
  · intro m h
    simp only [OrderWorkflow_run, h]
  · intro ord db1 m h1 hcc1 h2
    simp only [OrderWorkflow_run, h1, hcc1, Bool.false_eq_true, reduceIte, h2]
  · intro ord db1 b db2 m h1 hcc1 h2 hcc2 h3
    simp only [OrderWorkflow_run, h1, hcc1, hcc2, Bool.false_eq_true,
      reduceIte, h2, h3]
  · intro ord db1 b db2 cr db3 m dbS sig h1 hcc1 h2 hcc2 h3 hcc3 hship
    simp only [OrderWorkflow_run, h1, hcc1, hcc2, hcc3, Bool.false_eq_true,
      reduceIte, h2, h3, hship]

/-- Witness for C2: a run whose ReceiveOrder fails on all three attempts
returns the structured failed result for step RECEIVE. -/
theorem run_never_raises_witness :
    (OrderWorkflow_run emptyDB "O1" "P1" []
        ⟨[⟨"ABC", 1⟩], [some "boom", some "boom", some "boom"],
         [none], [none], [none], [none], none, []⟩).1 =
      ⟨"failed", "O1", "RECEIVE", none, ["boom"]⟩ :=
  (run_never_raises emptyDB "O1" "P1" []
    ⟨[⟨"ABC", 1⟩], [some "boom", some "boom", some "boom"],
     [none], [none], [none], [none], none, []⟩).2.2.2.1 "boom" rfl

theorem cancelFrom_isSome_of_canceledAt {env : Env} {i : Nat}
    (h : canceledAt env i = true) : env.cancelFrom.isSome = true := by
  unfold canceledAt at h
  cases hc : env.cancelFrom with
  | none => rw [hc] at h; exact absurd h (by simp)
  | some j => simp

/-- C4: if the cancellation flag reads true at the checkpoint following a
successful RECEIVE, VALIDATE or PAY activity, the run terminates right
there in FAILED with error list exactly `Canceled`, with the step still
naming the completed step, and with the store exactly as that step left
it (the next activity is never invoked); cancelling before RECEIVE
completes (flag already set at checkpoint 1) leaves a fresh order
persisted no further along than RECEIVED. -/
theorem cancel_checkpoint_terminates
    (db0 : DB) (order_id payment_id : String) (addr : Addr) (env : Env) :
    (∀ ord db1,
      executeActivity db0 (receive_order order_id env.fetched)
        env.receiveAtt = .ok (ord, db1) →
      canceledAt env 1 = true →
      OrderWorkflow_run db0 order_id payment_id addr env =
        (⟨"failed", order_id, "RECEIVE", none, ["Canceled"]⟩, db1,
         ⟨some ord, lastAddr env.addrSigs, true, ["Canceled"], "RECEIVE"⟩)) ∧
    (∀ ord db1 b db2,
      executeActivity db0 (receive_order order_id env.fetched)
        env.receiveAtt = .ok (ord, db1) →
      canceledAt env 1 = false →
      executeActivity db1 (validate_order ord) env.validateAtt = .ok (b, db2) →
      canceledAt env 2 = true →
      OrderWorkflow_run db0 order_id payment_id addr env =
        (⟨"failed", order_id, "VALIDATE", none, ["Canceled"]⟩, db2,
         ⟨some ord, lastAddr env.addrSigs, true, ["Canceled"], "VALIDATE"⟩)) ∧
    (∀ ord db1 b db2 cr db3,
      executeActivity db0 (receive_order order_id env.fetched)
        env.receiveAtt = .ok (ord, db1) →
      canceledAt env 1 = false →
      executeActivity db1 (validate_order ord) env.validateAtt = .ok (b, db2) →
      canceledAt env 2 = false →
      executeActivity db2 (charge_payment db2 ord payment_id)
        env.payAtt = .ok (cr, db3) →
      canceledAt env 3 = true →
      OrderWorkflow_run db0 order_id payment_id addr env =
        (⟨"failed", order_id, "PAY", none, ["Canceled"]⟩, db3,
         ⟨some ord, lastAddr env.addrSigs, true, ["Canceled"], "PAY"⟩)) ∧
    (∀ ord db1,
      lookupOrder db0 order_id = none →
      executeActivity db0 (receive_order order_id env.fetched)
        env.receiveAtt = .ok (ord, db1) →
      canceledAt env 1 = true →
      orderStateOf (OrderWorkflow_run db0 order_id payment_id addr env).2.1
        order_id = some "RECEIVED") := by
  refine ⟨?_, ?_, ?_, ?_⟩
  · intro ord db1 h1 hcc1
    simp only [OrderWorkflow_run, h1, hcc1, reduceIte,
      cancelFrom_isSome_of_canceledAt hcc1]
  · intro ord db1 b db2 h1 hcc1 h2 hcc2
    simp only [OrderWorkflow_run, h1, hcc1, Bool.false_eq_true, reduceIte,
      h2, hcc2, cancelFrom_isSome_of_canceledAt hcc2]
  · intro ord db1 b db2 cr db3 h1 hcc1 h2 hcc2 h3 hcc3
    simp only [OrderWorkflow_run, h1, hcc1, hcc2, Bool.false_eq_true,
      reduceIte, h2, h3, hcc3, cancelFrom_isSome_of_canceledAt hcc3]
  · intro ord db1 hfresh h1 hcc1
    simp only [OrderWorkflow_run, h1, hcc1, reduceIte]
    have hs1 := receive_exec_state h1
    have hnone : orderStateOf db0 order_id = none := by
      unfold orderStateOf
      rw [hfresh]
      rfl
    rw [hnone] at hs1
    exact hs1

/-- Witness for C4: cancel delivered before RECEIVE completes; the run
fails with exactly Canceled and the fresh order row stays RECEIVED. -/
theorem cancel_checkpoint_terminates_witness :
    OrderWorkflow_run emptyDB "O1" "P1" []
        ⟨[⟨"ABC", 1⟩], [none], [none], [none], [none], [none], some 0, []⟩ =
      (⟨"failed", "O1", "RECEIVE", none, ["Canceled"]⟩,
       ⟨[⟨"O1", "RECEIVED", emptyJson⟩], [],
        [⟨"O1", "order_received", .orderP ⟨"O1", [⟨"ABC", 1⟩]⟩⟩]⟩,
       ⟨some ⟨"O1", [⟨"ABC", 1⟩]⟩, [], true, ["Canceled"], "RECEIVE"⟩) ∧
    orderStateOf (OrderWorkflow_run emptyDB "O1" "P1" []
        ⟨[⟨"ABC", 1⟩], [none], [none], [none], [none], [none], some 0, []⟩).2.1
      "O1" = some "RECEIVED" :=
  ⟨(cancel_checkpoint_terminates emptyDB "O1" "P1" []
      ⟨[⟨"ABC", 1⟩], [none], [none], [none], [none], [none], some 0, []⟩).1
    ⟨"O1", [⟨"ABC", 1⟩]⟩
    ⟨[⟨"O1", "RECEIVED", emptyJson⟩], [],
     [⟨"O1", "order_received", .orderP ⟨"O1", [⟨"ABC", 1⟩]⟩⟩]⟩ rfl rfl,
   (cancel_checkpoint_terminates emptyDB "O1" "P1" []
      ⟨[⟨"ABC", 1⟩], [none], [none], [none], [none], [none], some 0, []⟩).2.2.2
    ⟨"O1", [⟨"ABC", 1⟩]⟩
    ⟨[⟨"O1", "RECEIVED", emptyJson⟩], [],
     [⟨"O1", "order_received", .orderP ⟨"O1", [⟨"ABC", 1⟩]⟩⟩]⟩ rfl rfl rfl⟩

/-- C6: when the shipping child workflow fails after its retries, it both
sends the dispatch_failed(reason) signal to its parent and re-raises the
failure (its result is the error); the parent appends the advisory entry
and the propagated error to its error list and ends failed at step SHIP,
with the store as the child left it (the order process itself is not
retried: the result is final). -/
theorem shipping_failure_reported
    (db0 : DB) (order_id payment_id : String) (addr : Addr) (env : Env)
    (ord : OrderVal) (db1 db2 db3 dbS : DB) (b : Bool) (cr : ChargeResult)
    (m : String) (sig : Option String)
    (hR : executeActivity db0 (receive_order order_id env.fetched)
      env.receiveAtt = .ok (ord, db1))
    (hcc1 : canceledAt env 1 = false)
    (hV : executeActivity db1 (validate_order ord) env.validateAtt = .ok (b, db2))
    (hcc2 : canceledAt env 2 = false)
    (hP : executeActivity db2 (charge_payment db2 ord payment_id)
      env.payAtt = .ok (cr, db3))
    (hcc3 : canceledAt env 3 = false)
    (hShip : ShippingWorkflow_run db3 ord env.prepareAtt env.dispatchAtt =
      (.error m, dbS, sig)) :
    sig = some m ∧
    OrderWorkflow_run db0 order_id payment_id addr env =
      (⟨"failed", order_id, "SHIP", none, ["dispatch_failed: " ++ m, m]⟩, dbS,
       ⟨some ord, lastAddr env.addrSigs, env.cancelFrom.isSome,
        ["dispatch_failed: " ++ m, m], "SHIP"⟩) := by
  have hsig := shipping_error_sig hShip
  subst hsig
  refine ⟨rfl, ?_⟩
  simp only [OrderWorkflow_run, hR, hcc1, hcc2, hcc3, Bool.false_eq_true,
    reduceIte, hV, hP, hShip, dispatchErrors, List.singleton_append]

/-- Witness for C6: a permanently failing dispatch collaborator; the
child signals and re-raises, the parent records both entries and fails at
SHIP. -/
theorem shipping_failure_reported_witness :
    (some "boom" = some "boom") ∧
    OrderWorkflow_run emptyDB "O1" "P1" []
        ⟨[⟨"ABC", 1⟩], [none], [none], [none], [none],
         [some "boom", some "boom", some "boom"], none, []⟩ =
      (⟨"failed", "O1", "SHIP", none, ["dispatch_failed: boom", "boom"]⟩,
       ⟨[⟨"O1", "PAID", emptyJson⟩], [⟨"P1", "O1", "charged", 1⟩],
        [⟨"O1", "order_received", .orderP ⟨"O1", [⟨"ABC", 1⟩]⟩⟩,
         ⟨"O1", "order_validated", .okP true⟩,
         ⟨"O1", "payment_charged", .chargeP "P1" "charged" 1⟩,
         ⟨"O1", "package_prepared", .resultP "Package ready"⟩]⟩,
       ⟨some ⟨"O1", [⟨"ABC", 1⟩]⟩, [], false,
        ["dispatch_failed: boom", "boom"], "SHIP"⟩) :=
  shipping_failure_reported emptyDB "O1" "P1" []
    ⟨[⟨"ABC", 1⟩], [none], [none], [none], [none],
     [some "boom", some "boom", some "boom"], none, []⟩
    ⟨"O1", [⟨"ABC", 1⟩]⟩
    ⟨[⟨"O1", "RECEIVED", emptyJson⟩], [],
     [⟨"O1", "order_received", .orderP ⟨"O1", [⟨"ABC", 1⟩]⟩⟩]⟩
    ⟨[⟨"O1", "VALIDATED", emptyJson⟩], [],
     [⟨"O1", "order_received", .orderP ⟨"O1", [⟨"ABC", 1⟩]⟩⟩,
      ⟨"O1", "order_validated", .okP true⟩]⟩
    ⟨[⟨"O1", "PAID", emptyJson⟩], [⟨"P1", "O1", "charged", 1⟩],
     [⟨"O1", "order_received", .orderP ⟨"O1", [⟨"ABC", 1⟩]⟩⟩,
      ⟨"O1", "order_validated", .okP true⟩,
      ⟨"O1", "payment_charged", .chargeP "P1" "charged" 1⟩]⟩
    ⟨[⟨"O1", "PAID", emptyJson⟩], [⟨"P1", "O1", "charged", 1⟩],
     [⟨"O1", "order_received", .orderP ⟨"O1", [⟨"ABC", 1⟩]⟩⟩,
      ⟨"O1", "order_validated", .okP true⟩,
      ⟨"O1", "payment_charged", .chargeP "P1" "charged" 1⟩,
      ⟨"O1", "package_prepared", .resultP "Package ready"⟩]⟩
    true ⟨"charged", 1, false⟩ "boom" (some "boom")
    rfl rfl rfl rfl rfl rfl rfl

/-- C9: the address argument of OrderWorkflow.run is never read: two runs
differing only in that argument return the same result, perform the same
store writes and end in the same instance state, so every status query
answer agrees; and without an update_address signal the stored address
stays the empty dict. -/
theorem address_argument_unused
    (db0 : DB) (order_id payment_id : String) (a a2 : Addr) (env : Env) :
    OrderWorkflow_run db0 order_id payment_id a env =
      OrderWorkflow_run db0 order_id payment_id a2 env ∧
    OrderWorkflow_status (OrderWorkflow_run db0 order_id payment_id a env).2.2 =
      OrderWorkflow_status (OrderWorkflow_run db0 order_id payment_id a2 env).2.2 ∧
    (env.addrSigs = [] →
      (OrderWorkflow_run db0 order_id payment_id a env).2.2.address = []) := by
  refine ⟨rfl, rfl, ?_⟩
  intro hs
  have haddr : (OrderWorkflow_run db0 order_id payment_id a env).2.2.address =
      lastAddr env.addrSigs := by
    unfold OrderWorkflow_run
    repeat' split
    all_goals rfl
  rw [haddr, hs]
  rfl

/-- Witness for C9: a non-empty address argument, no update_address
signal; the stored address is still empty. -/
theorem address_argument_unused_witness :
    (OrderWorkflow_run emptyDB "O1" "P1" [("street", "x")]
        ⟨[⟨"ABC", 1⟩], [none], [none], [none], [none], [none], none, []⟩).2.2.address =
      [] :=
  (address_argument_unused emptyDB "O1" "P1" [("street", "x")] []
    ⟨[⟨"ABC", 1⟩], [none], [none], [none], [none], [none], none, []⟩).2.2 rfl

end Fulfillment
